import Mathlib

/-
Verification of the support-tracker reconciliation pipeline: a shallow
embedding of the StackOverflowService / InternalStackOverflowService /
GitHubService processing pipelines, the DevOps helpers they inherit, and
the runQueryJob scheduler, together with theorems settling the frozen
claims about the program.
-/

namespace SupportTracker

/- ## JavaScript string model

JavaScript strings are sequences of UTF-16 code units.  We model them as
lists of naturals so that String.prototype.slice and string equality have
their exact JS semantics. -/

/-- A JavaScript string: its sequence of UTF-16 code units. -/
abbrev JSString := List Nat

/-- UTF-16 encoding of a sequence of Unicode code points: a code point below
0x10000 is a single unit, an astral code point becomes a surrogate pair. -/
def utf16Encode (cps : List Nat) : JSString :=
  cps.flatMap fun c =>
    if c < 65536 then [c]
    else [55296 + (c - 65536) / 1024, 56320 + (c - 65536) % 1024]

/-- Embed a Lean string as a JavaScript string (UTF-16 units of its code points). -/
def jstr (s : String) : JSString :=
  utf16Encode (s.toList.map Char.toNat)

/-- Model of `title.slice(0, 255)`: JavaScript slice operates on UTF-16 code
units, so this is the first 255 units. -/
def jsSlice255 (s : JSString) : JSString := s.take 255

/- ## Shared utilities

`shared/domain/utils.js` itself is not part of the provided sources (only its
unit tests and its callers are), so the two helpers the pipeline branches on
are modelled from the spec. -/

/-- Modelled from the spec: `removeDuplicates` from the missing
shared/domain/utils.js.  §3 fixes the semantics — deduplication by the
caller-supplied key, keeping the first occurrence in order — matching the
unit tests of removeDuplicates. -/
def removeDuplicates {α β : Type} [DecidableEq β] (l : List α) (key : α → β) : List α :=
  (l.foldl
    (fun (acc : List α × List β) x =>
      if key x ∈ acc.2 then acc else (acc.1 ++ [x], acc.2 ++ [key x]))
    ([], [])).1

/-- Modelled from the spec: `areObjectsInArrayEmpty` from the missing
shared/domain/utils.js.  Per its unit tests it is true on the empty array and
false on any non-empty array of (non-array) objects, which is the only way
the pipeline applies it; a source with zero items is the empty case (§8). -/
def areObjectsInArrayEmpty {α : Type} (l : List α) : Bool := l.isEmpty

/- ## ErrorHandler -/

/-- ErrorHandler.handleServiceResponse reduced to its decision: `true` when
the response is passed through unchanged, `false` when it is converted into
an Error via errorHandler.  The switch treats 400, 401, 403, 404, 429 and 500
as errors and the default arm rejects every other status at or above 400.
The method is async; GitHubService awaits it on its fetches, but the two
Stack Overflow getIssues variants and DevOpsService.addIssues invoke it
without await, so there its eventual value never reaches the caller (the
pipelines below model those call sites accordingly). -/
def handleServiceResponseOk (status : Nat) : Bool :=
  match status with
  | 200 => true
  | 204 => true
  | 400 => false
  | 401 => false
  | 403 => false
  | 404 => false
  | 429 => false
  | 500 => false
  | s => decide (s < 400)

/- ## Stack Overflow service data model (part_000) -/

/-- One Stack Overflow question as consumed by the service (the fields
destructured in process). -/
structure SOItem where
  question_id : Nat
  title : JSString
  body : JSString
deriving DecidableEq, Repr

/-- The work-item fields object built from one question (process lines
49-54).  `status` models the status property (set to New) later assigned to
entries of unassignedIssues. -/
structure SOIssue where
  systemTitle : JSString
  customIssueID : Nat
  customIssueType : String
  customIssueURL : String
  status : Option String := none
deriving DecidableEq, Repr

/-- A work-item reference inside a WIQL search response (`data.workItems`
element): its id and per-work-item url. -/
structure WorkItemRef where
  id : Nat
  url : String
deriving DecidableEq, Repr

/-- The detail payload of getWorkItemByUrl as the SO pipeline reads it:
`data.id`, truthiness of the Custom.IssueID field, and the stored
System.Title field. -/
structure WorkItemData where
  id : Nat
  hasCustomIssueID : Bool
  systemTitle : JSString
deriving DecidableEq, Repr

/-- Outcome of DevOpsService.searchWorkItemByIssueId: it either resolves with
a response, or catches the axios failure internally and returns the Error
object produced by errorHandler (it never throws). -/
inductive WiqlOutcome where
  | resp (status : Nat) (workItems : List WorkItemRef)
  | errObj
deriving DecidableEq, Repr

/-- Outcome of DevOpsService.getWorkItemByUrl: a response, or a rethrown
axios error. -/
inductive GetWorkItemOutcome where
  | resp (status : Nat) (data : WorkItemData)
  | thrown
deriving DecidableEq, Repr

/-- Outcome of the single axios.get issued by fetchStackOverflowIssues:
either a resolved response, or a rejection optionally carrying
`error.response` as a status and item list. -/
inductive SOAxiosOutcome where
  | success (status : Nat) (items : List SOItem)
  | failure (response : Option (Nat × List SOItem))
deriving DecidableEq, Repr

/-- Errors propagating through the SO pipeline. -/
inductive SOErr where
  | abortError
  | serviceHttp (status : Nat)
  | network
deriving DecidableEq, Repr

/-- The environment one Stack Overflow run executes against: settings, the
per-tag upstream outcome, and the work-item-tracker responses. -/
structure SOEnv where
  useTestData : Bool
  testData : List SOItem
  fetchOutcome : String → SOAxiosOutcome
  wiql : Nat → WiqlOutcome
  getWorkItem : String → GetWorkItemOutcome
  org : String
  project : String
  createOutcome : Except Unit Nat

/-- The constructor arguments distinguishing StackOverflowService from
InternalStackOverflowService: tag list, source label, and the per-class
question-URL builder. -/
structure SOConfig where
  tags : List String
  source : String
  getUrl : Nat → String

/-- The options object runQueryJob passes to process (signal, onProgress and
pushToDevOps).  process destructures only `signal`; `pushToDevOps` is carried
but never read by the SO pipeline. -/
structure SOOptions where
  aborted : Bool := false
  pushToDevOps : Bool := true

/-- Result of fetchStackOverflowIssues: the number of HTTP requests issued,
how long the client slept, and either the response (status, items) or a
rethrown error. -/
structure SOFetchResult where
  requests : Nat
  sleptMs : Nat
  outcome : Except Unit (Nat × List SOItem)
deriving Repr

/-- StackOverflowService.fetchStackOverflowIssues: one axios.get; when the
request rejects and `error.response?.status === 429` the client sleeps
5100 ms and returns that response object (no retry request); any other
rejection is rethrown. -/
def fetchStackOverflowIssues (o : SOAxiosOutcome) : SOFetchResult :=
  match o with
  | .success status items => ⟨1, 0, .ok (status, items)⟩
  | .failure (some (status, items)) =>
      if status = 429 then ⟨1, 5100, .ok (status, items)⟩
      else ⟨1, 0, .error ()⟩
  | .failure none => ⟨1, 0, .error ()⟩

/-- The snapshot section key process picks at each write site:
`internalStackOverflow` when the tag list contains `bot-framework`,
`stackOverflow` otherwise. -/
def soSnapshotKey (tags : List String) : String :=
  if tags.contains "bot-framework" then "internalStackOverflow" else "stackOverflow"

/-- The header object literal of fetchStackOverflowIssues:
`config.headers` is spread first and the User-Agent key is then set from the
tag list, so in JS object-literal semantics the tag-derived value always
wins, even when the caller (the internal subclass) put its own User-Agent in
`config.headers`. -/
def soFetchHeaders (tags : List String) (configHeaders : List (String × String)) :
    List (String × String) :=
  configHeaders ++
    [("User-Agent",
      if tags.contains "bot-framework" then "InternalStackOverflowService"
      else "StackOverflowService")]

/-- The effective value of a header key in an object literal: the last
binding wins. -/
def headerValue (key : String) (hs : List (String × String)) : Option String :=
  (hs.reverse.find? (fun p => p.1 == key)).map (fun p => p.2)

/-- The config headers InternalStackOverflowService.getIssues builds before
calling fetchStackOverflowIssues (its own User-Agent plus the X-API-Key). -/
def internalConfigHeaders (apiKey : String) : List (String × String) :=
  [("User-Agent", "InternalStackOverflowService"), ("X-API-Key", apiKey)]

/-- StackOverflowService.getIssues for one tag: politeness sleep, abort
check, test-data shortcut, then fetchStackOverflowIssues.  The async
handleServiceResponse is called WITHOUT await (part_000 line 215, and the
internal variant alike), so `response` is a pending Promise: the
`response instanceof Error` check never fires and `response.data?.items`
is undefined — every resolved fetch (a 200 with items as much as a returned
429 response) yields the empty list.  Only rejections that
fetchStackOverflowIssues rethrows (non-429 axios failures) propagate. -/
def getIssues (env : SOEnv) (aborted : Bool) (tagged : String) :
    Except SOErr (List SOItem) :=
  if aborted then .error .abortError
  else if env.useTestData then .ok env.testData
  else
    match (fetchStackOverflowIssues (env.fetchOutcome tagged)).outcome with
    | .error _ => .error .network
    | .ok _ => .ok []

/-- The tag loop of process (lines 28-36): run getIssues per tag in order,
concatenating results; the loop checks the abort signal before each task and
the first thrown error aborts the whole phase. -/
def fetchPhase (env : SOEnv) (aborted : Bool) : List String → Except SOErr (List SOItem)
  | [] => .ok []
  | t :: ts =>
      if aborted then .error .abortError
      else
        match getIssues env aborted t with
        | .error e => .error e
        | .ok result =>
            match fetchPhase env aborted ts with
            | .error e => .error e
            | .ok rest => .ok (result ++ rest)

/-- process lines 49-54: normalize one deduplicated question into work-item
fields; the title is cut by JS slice(0, 255) and the URL is wrapped in an
anchor built from the per-class getUrl. -/
def mapSOIssue (cfg : SOConfig) (it : SOItem) : SOIssue :=
  { systemTitle := jsSlice255 it.title
  , customIssueID := it.question_id
  , customIssueType := cfg.source
  , customIssueURL :=
      "<a href=\"" ++ cfg.getUrl it.question_id ++ "\">" ++ cfg.getUrl it.question_id ++ "</a>"
  , status := none }

/-- One possible DevOps match recorded by the SO lookup loop (lines 93-99). -/
structure SODevOpsMatch where
  id : Nat
  customIssueID : Nat
  customIssueURL : String
  customDevOpsURL : String
  systemTitle : JSString
deriving DecidableEq, Repr

/-- Inner loop of the SO lookup phase (lines 83-101): fetch each work item of
a WIQL hit list by its url; a 200 response whose fields carry a truthy
Custom.IssueID contributes a possible DevOps match recording the incoming
issue id and the stored System.Title. -/
def collectMatches (env : SOEnv) (aborted : Bool) (issue : SOIssue) :
    List WorkItemRef → Except SOErr (List SODevOpsMatch)
  | [] => .ok []
  | wi :: rest =>
      if aborted then .error .abortError
      else
        match env.getWorkItem wi.url with
        | .thrown => .error .network
        | .resp status data =>
            let here :=
              if status == 200 && data.hasCustomIssueID then
                [{ id := data.id
                 , customIssueID := issue.customIssueID
                 , customIssueURL := issue.customIssueURL
                 , customDevOpsURL :=
                     "https://dev.azure.com/" ++ env.org ++ "/" ++ env.project ++
                       "/_workitems/edit/" ++ toString data.id
                 , systemTitle := data.systemTitle }]
              else []
            match collectMatches env aborted issue rest with
            | .error e => .error e
            | .ok more => .ok (here ++ more)

/-- The per-issue lookup loop of SO process (lines 70-103), producing
(unassignedIssues, possibleDevOpsMatches).  A WIQL call that returned an
Error object has no `.status`, so both status tests fail and the issue is
silently skipped. -/
def lookupPhase (env : SOEnv) (aborted : Bool) :
    List SOIssue → Except SOErr (List SOIssue × List SODevOpsMatch)
  | [] => .ok ([], [])
  | issue :: rest =>
      if aborted then .error .abortError
      else
        match env.wiql issue.customIssueID with
        | .errObj => lookupPhase env aborted rest
        | .resp status workItems =>
            let unassignedHere :=
              if status == 200 && workItems.isEmpty then [issue] else []
            if status == 200 && !workItems.isEmpty then
              match collectMatches env aborted issue workItems with
              | .error e => .error e
              | .ok ms =>
                  match lookupPhase env aborted rest with
                  | .error e => .error e
                  | .ok (u, m) => .ok (unassignedHere ++ u, ms ++ m)
            else
              match lookupPhase env aborted rest with
              | .error e => .error e
              | .ok (u, m) => .ok (unassignedHere ++ u, m)

/-- Set the status field of the element at an index to New (the in-place
assignment of New to the status of the entry at an index). -/
def setStatusNew : List SOIssue → Nat → List SOIssue
  | [], _ => []
  | x :: xs, 0 => { x with status := some "New" } :: xs
  | x :: xs, Nat.succ n => x :: setStatusNew xs n

/-- One iteration of the status-marking loop (process lines 122-136): when
the issue has a DevOps entry matching its id and title, the first
identically-keyed entry of unassignedIssues (when one exists) gets status
New. -/
def markNewStep (devMatches : List SODevOpsMatch) (ua : List SOIssue)
    (issue : SOIssue) : List SOIssue :=
  let ex := devMatches.any fun m =>
    m.customIssueID == issue.customIssueID && m.systemTitle == issue.systemTitle
  if ex && !ua.isEmpty then
    match ua.findIdx? (fun u =>
        u.customIssueID == issue.customIssueID && u.systemTitle == issue.systemTitle) with
    | some i => setStatusNew ua i
    | none => ua
  else ua

/-- Lines 121-137 of SO process: the status-marking loop over all fetched
issues. -/
def markNew (issues : List SOIssue) (devMatches : List SODevOpsMatch)
    (unassigned : List SOIssue) : List SOIssue :=
  issues.foldl (markNewStep devMatches) unassigned

/-- DevOpsService.addIssues: one POST per issue.  `await axios.request`
either resolves (a 2xx response) or rejects, and a rejection propagates out
of the loop (the failing POST was already issued).  On a resolved response
the async handleServiceResponse is called WITHOUT await (DevOpsService.js
line 82), so the `instanceof Error` check never fires and the loop always
continues; the returned value resolves to the last create response (none
when called on an empty list). -/
def addIssues (env : SOEnv) (aborted : Bool) :
    List SOIssue → List SOIssue × Except SOErr (Option Nat)
  | [] => ([], .ok none)
  | issue :: rest =>
      if aborted then ([], .error .abortError)
      else
        match env.createOutcome with
        | .error _ => ([issue], .error .network)
        | .ok st =>
            match addIssues env aborted rest with
            | (posted, .ok none) => (issue :: posted, .ok (some st))
            | (posted, out) => (issue :: posted, out)

/-- The issuesDb point-path writes one SO run performs (each tagged with the
snapshot section key used) plus the create POSTs issued. -/
structure SOWrites where
  foundIssues : Option (String × List SOIssue) := none
  foundCount : Option (String × Nat) := none
  devOps : Option (String × List SODevOpsMatch) := none
  newIssuesList : Option (String × List SOIssue) := none
  newIssuesCount : Option (String × Nat) := none
  creates : List SOIssue := []
deriving Repr

/-- Caller-observable result of SO process. -/
inductive SOResult where
  | noNewPosts
  | noPostsToAdd
  | createResponse (status : Option Nat)
  | errorResult (e : SOErr)
  | abortRethrown
deriving DecidableEq, Repr

/-- Map a thrown pipeline error to what process returns: AbortError is
rethrown, anything else is handed to errorHandler and returned. -/
def abortOrError (e : SOErr) : SOResult :=
  match e with
  | .abortError => .abortRethrown
  | e => .errorResult e

/-- The found-section writes (process lines 58-63). -/
def foundOnly (cfg : SOConfig) (issues : List SOIssue) : SOWrites :=
  { foundIssues := some (soSnapshotKey cfg.tags, issues)
  , foundCount := some (soSnapshotKey cfg.tags, issues.length) }

/-- The classification tail of SO process (lines 111-157): devOps write and
status marking when devMatches exist, the no-posts-to-add early return, the
newIssues writes, and the unconditional addIssues call (the SO pipeline
never consults pushToDevOps). -/
def classifyPhase (cfg : SOConfig) (env : SOEnv) (aborted : Bool)
    (issues unassigned : List SOIssue) (devMatches : List SODevOpsMatch) :
    SOWrites × SOResult :=
  let unassigned2 := if devMatches.isEmpty then unassigned else markNew issues devMatches unassigned
  let base :=
    if devMatches.isEmpty then foundOnly cfg issues
    else { foundOnly cfg issues with devOps := some (soSnapshotKey cfg.tags, devMatches) }
  if unassigned2.isEmpty then (base, .noPostsToAdd)
  else
    let w :=
      { base with
          newIssuesList := some (soSnapshotKey cfg.tags, unassigned2)
        , newIssuesCount := some (soSnapshotKey cfg.tags, unassigned2.length) }
    match addIssues env aborted unassigned2 with
    | (posted, .error .abortError) => ({ w with creates := posted }, .abortRethrown)
    | (posted, .error e) => ({ w with creates := posted }, .errorResult e)
    | (posted, .ok st) => ({ w with creates := posted }, .createResponse st)

/-- SO process after a successful non-empty fetch: dedup by question_id, map
to work-item fields, persist the found section, then look up and classify. -/
def processAfterFetch (cfg : SOConfig) (env : SOEnv) (aborted : Bool)
    (uniqueIssues : List SOItem) : SOWrites × SOResult :=
  let issues := uniqueIssues.map (mapSOIssue cfg)
  match lookupPhase env aborted issues with
  | .error e => (foundOnly cfg issues, abortOrError e)
  | .ok (unassigned, devMatches) => classifyPhase cfg env aborted issues unassigned devMatches

/-- StackOverflowService.process (part_000 lines 19-158), shared by the
public and internal services. -/
def SOprocess (cfg : SOConfig) (env : SOEnv) (opts : SOOptions) : SOWrites × SOResult :=
  match fetchPhase env opts.aborted cfg.tags with
  | .error e => ({}, abortOrError e)
  | .ok items =>
      if areObjectsInArrayEmpty items || items.length == 0 then ({}, .noNewPosts)
      else processAfterFetch cfg env opts.aborted (removeDuplicates items fun it => it.question_id)

/- ## GitHub service data model (shared/domain/services/GitHubService.js) -/

/-- One GitHub issue node as consumed by GitHubService.process (the fields
destructured on line 59): number, label names, repository name, title, url. -/
structure GHItem where
  number : Nat
  labels : List String
  repositoryName : String
  title : JSString
  url : String
deriving DecidableEq, Repr

/-- Modelled from the spec: `getSdk` from the missing shared/domain/utils.js.
§3 fixes the mapping from the lowercased repository name suffix to the SDK
label, with `(Unknown)` as fallback. -/
def getSdk (name : String) : String :=
  let n := name.toLower
  if "-java".data.isSuffixOf n.data then "Java"
  else if "-js".data.isSuffixOf n.data then "Node"
  else if "-dotnet".data.isSuffixOf n.data then "C#"
  else if "-python".data.isSuffixOf n.data then "Python"
  else "(Unknown)"

/-- Line 61: the System.Tags derivation — the literal `[Support Labelled]`
when some label name lowercases to `support` or `team: support`, otherwise
the empty string. -/
def ghSystemTags (labels : List String) : String :=
  if labels.any (fun n => n.toLower == "support" || n.toLower == "team: support")
  then "[Support Labelled]" else ""

/-- The work-item fields object built from one GitHub issue (process lines
59-67). -/
structure GHIssue where
  systemTitle : JSString
  systemTags : String
  customIssueID : Nat
  customIssueType : String
  customSDK : String
  customRepository : String
  customIssueURL : String
deriving DecidableEq, Repr

/-- Normalize one deduplicated GitHub issue node into work-item fields. -/
def mapGHIssue (source : String) (it : GHItem) : GHIssue :=
  { systemTitle := jsSlice255 it.title
  , systemTags := ghSystemTags it.labels
  , customIssueID := it.number
  , customIssueType := source
  , customSDK := getSdk it.repositoryName
  , customRepository := it.repositoryName.toLower
  , customIssueURL := "<a href=\"" ++ it.url ++ "\">" ++ it.url ++ "</a>" }

/-- The detail payload of getWorkItemByUrl as the GitHub pipeline reads it:
`data.id` (whose truthiness is the guard on line 105) and
the stored System.Title field. -/
structure GHWorkItemData where
  id : Nat
  systemTitle : JSString
deriving DecidableEq, Repr

/-- Outcome of getWorkItemByUrl for the GitHub pipeline. -/
inductive GHGetWorkItemOutcome where
  | resp (status : Nat) (data : GHWorkItemData)
  | thrown
deriving DecidableEq, Repr

/-- Errors propagating through the GitHub pipeline. -/
inductive GHErr where
  | abortError
  | serviceHttp (status : Nat)
  | network
deriving DecidableEq, Repr

/-- One existing-issue detail recorded by the GitHub lookup loop (lines
108-115). -/
structure GHDevOpsMatch where
  id : Nat
  customIssueID : Nat
  customIssueURL : String
  customDevOpsURL : String
  customRepository : String
  systemTitle : JSString
deriving DecidableEq, Repr

/-- The environment one GitHub run executes against.  `repoFetch` abstracts
GitHubService.getIssues for one repository (the GraphQL client, label
filtering and politeness sleep); the remaining fields are the
work-item-tracker responses. -/
structure GHEnv where
  useTestData : Bool
  testData : List GHItem
  repoFetch : String → Except GHErr (List GHItem)
  wiql : Nat → WiqlOutcome
  getWorkItem : String → GHGetWorkItemOutcome
  org : String
  project : String
  createOutcome : Except Unit Nat

/-- Constructor arguments of GitHubService: repository short names and the
source label. -/
structure GHConfig where
  repositories : List String
  source : String

/-- Options passed to GitHubService.process; unlike the SO pipeline it
destructures and honours pushToDevOps (default true). -/
structure GHOptions where
  aborted : Bool := false
  pushToDevOps : Bool := true

/-- The issuesDb writes one GitHub run performs (all under the fixed
`index.github` section) plus the create POSTs issued. -/
structure GHWrites where
  foundIssues : Option (List GHIssue) := none
  foundCount : Option Nat := none
  devOps : Option (List GHDevOpsMatch) := none
  newIssuesList : Option (List GHIssue) := none
  newIssuesCount : Option Nat := none
  creates : List GHIssue := []
deriving Repr

/-- Caller-observable result of GitHubService.process.  `devOpsAttributed`
is an Error returned with the Azure DevOps service label (lines 86-90 and
the catch blocks that preserve `_sourceService`). -/
inductive GHResult where
  | noNewIssues
  | noIssuesToAdd
  | notPushed (count : Nat)
  | createResponse (status : Option Nat)
  | errorResult (e : GHErr)
  | devOpsAttributed
  | abortRethrown
deriving DecidableEq, Repr

/-- The repository loop of GitHubService.process (lines 35-44): abort check
and progress callback per repository, results concatenated; in test-data
mode the loop is replaced by getTestData. -/
def ghFetchPhase (env : GHEnv) (opts : GHOptions) : List String → Except GHErr (List GHItem)
  | [] => .ok []
  | r :: rs =>
      if opts.aborted then .error .abortError
      else
        match env.repoFetch r with
        | .error e => .error e
        | .ok result =>
            match ghFetchPhase env opts rs with
            | .error e => .error e
            | .ok rest => .ok (result ++ rest)

/-- Inner loop of the GitHub lookup phase (lines 101-117): fetch each work
item of a WIQL hit list; a 200 response with a truthy `data.id` contributes
an existing-issue detail.  A thrown getWorkItemByUrl error carries the Azure
DevOps attribution. -/
def ghCollectDetails (env : GHEnv) (opts : GHOptions) (issue : GHIssue) :
    List WorkItemRef → Except GHErr (List GHDevOpsMatch)
  | [] => .ok []
  | wi :: rest =>
      if opts.aborted then .error .abortError
      else
        match env.getWorkItem wi.url with
        | .thrown => .error .network
        | .resp status data =>
            let here :=
              if status == 200 && data.id != 0 then
                [{ id := data.id
                 , customIssueID := issue.customIssueID
                 , customIssueURL := issue.customIssueURL
                 , customDevOpsURL :=
                     "https://dev.azure.com/" ++ env.org ++ "/" ++ env.project ++
                       "/_workitems/edit/" ++ toString data.id
                 , customRepository := issue.customRepository
                 , systemTitle := data.systemTitle }]
              else []
            match ghCollectDetails env opts issue rest with
            | .error e => .error e
            | .ok more => .ok (here ++ more)

/-- The per-issue lookup loop of GitHubService.process (lines 81-119),
producing (unassignedIssues, existingIssuesDetails).  Unlike the SO loop, a
WIQL call that returned an AxiosError object aborts the whole run with a
DevOps-attributed error (lines 86-90), and an issue with an empty hit list
is pushed and skipped with `continue` (lines 92-95). -/
inductive GHLookup where
  | ok (unassigned : List GHIssue) (details : List GHDevOpsMatch)
  | wiqlErrObj
  | err (e : GHErr)
deriving Repr

/-- The GitHub lookup loop itself. -/
def ghLookupPhase (env : GHEnv) (opts : GHOptions) : List GHIssue → GHLookup
  | [] => .ok [] []
  | issue :: rest =>
      if opts.aborted then .err .abortError
      else
        match env.wiql issue.customIssueID with
        | .errObj => .wiqlErrObj
        | .resp status workItems =>
            if status == 200 && workItems.isEmpty then
              match ghLookupPhase env opts rest with
              | .ok u m => .ok (issue :: u) m
              | other => other
            else if status == 200 && !workItems.isEmpty then
              match ghCollectDetails env opts issue workItems with
              | .error e => .err e
              | .ok ms =>
                  match ghLookupPhase env opts rest with
                  | .ok u m => .ok u (ms ++ m)
                  | other => other
            else
              ghLookupPhase env opts rest

/-- DevOpsService.addIssues as invoked from the GitHub pipeline: the same
resolve-or-reject semantics with the unawaited handleServiceResponse (a
resolved create never throws mid-loop). -/
def ghAddIssues (env : GHEnv) (opts : GHOptions) :
    List GHIssue → List GHIssue × Except GHErr (Option Nat)
  | [] => ([], .ok none)
  | issue :: rest =>
      if opts.aborted then ([], .error .abortError)
      else
        match env.createOutcome with
        | .error _ => ([issue], .error .network)
        | .ok st =>
            match ghAddIssues env opts rest with
            | (posted, .ok none) => (issue :: posted, .ok (some st))
            | (posted, out) => (issue :: posted, out)

/-- The classification tail of GitHubService.process (lines 133-179): when
details exist they are written to `index.github.devOps` and every fetched
issue without an id-and-title match is pushed onto unassignedIssues (issues
whose WIQL hit list was empty are thereby pushed a second time); then the
no-issues-to-add return, the newIssues writes, the pushToDevOps guard (lines
164-167) and otherwise addIssues. -/
def ghClassifyPhase (env : GHEnv) (opts : GHOptions)
    (issues unassigned : List GHIssue) (details : List GHDevOpsMatch)
    (found : GHWrites) : GHWrites × GHResult :=
  let unassigned2 :=
    if details.isEmpty then unassigned
    else unassigned ++ issues.filter (fun issue =>
      !(details.any fun d =>
        d.customIssueID == issue.customIssueID && d.systemTitle == issue.systemTitle))
  let base := if details.isEmpty then found else { found with devOps := some details }
  if unassigned2.isEmpty then (base, .noIssuesToAdd)
  else
    let w :=
      { base with
          newIssuesList := some unassigned2
        , newIssuesCount := some unassigned2.length }
    if !opts.pushToDevOps then (w, .notPushed unassigned2.length)
    else
      match ghAddIssues env opts unassigned2 with
      | (posted, .error .abortError) => ({ w with creates := posted }, .abortRethrown)
      | (posted, .error e) => ({ w with creates := posted }, .errorResult e)
      | (posted, .ok st) => ({ w with creates := posted }, .createResponse st)

/-- GitHubService.process (lines 21-180). -/
def GHprocess (cfg : GHConfig) (env : GHEnv) (opts : GHOptions) : GHWrites × GHResult :=
  match (if env.useTestData then .ok env.testData
         else ghFetchPhase env opts cfg.repositories : Except GHErr (List GHItem)) with
  | .error .abortError => ({}, .abortRethrown)
  | .error e => ({}, .errorResult e)
  | .ok items =>
      if areObjectsInArrayEmpty items || items.length == 0 then ({}, .noNewIssues)
      else
        let uniqueIssues := removeDuplicates items fun it => it.url
        let issues := uniqueIssues.map (mapGHIssue cfg.source)
        let found : GHWrites :=
          { foundIssues := some issues, foundCount := some issues.length }
        match ghLookupPhase env opts issues with
        | .wiqlErrObj => (found, .devOpsAttributed)
        | .err .abortError => (found, .abortRethrown)
        | .err e => (found, .errorResult e)
        | .ok unassigned details => ghClassifyPhase env opts issues unassigned details found

/- ## Query date derivation (runQueryJob, part_019 lines 104-111) -/

/-- JavaScript `a || b` defaulting on a numeric query parameter: the value is
replaced by the fallback when it is undefined or 0, because 0 is falsy. -/
def jsOrNat (v : Option Nat) (fallback : Nat) : Nat :=
  match v with
  | some n => if n = 0 then fallback else n
  | none => fallback

/-- Local wall-clock components of a Date.  `day` is an absolute day index
so that `setDate(getDate() - n)` is day subtraction (JS setDate normalizes
across month boundaries). -/
structure LocalDateTime where
  day : Int
  hour : Nat
  minute : Nat
  second : Nat
  ms : Nat
deriving DecidableEq, Repr

/-- Lines 104-111 of runQueryJob: effective days and start hour computed
with || defaulting (params, then settings.queryDefaults, then 1 resp. 10),
then `setDate(getDate() - numberOfDays)` and
`setHours(startHour, 0, 0, 0)` on the job-start local time.  The final
`new Date(queryDate.toUTCString())` re-parses the same instant and is a
no-op on these components. -/
def deriveQueryDate (now : LocalDateTime) (qpDays qpHour sdDays sdHour : Option Nat) :
    LocalDateTime :=
  let numberOfDays := jsOrNat qpDays (jsOrNat sdDays 1)
  let startHour := jsOrNat qpHour (jsOrNat sdHour 10)
  { day := now.day - numberOfDays, hour := startHour, minute := 0, second := 0, ms := 0 }

/- ## Job scheduler model (part_019: createJob / cancelJob / runQueryJob) -/

/-- Job status values. -/
inductive JobStatus where
  | running
  | completed
  | cancelled
  | error
deriving DecidableEq, Repr

/-- Abstraction of one service process run as the scheduler observes it:
upstream fetch requests issued, work-item create POSTs issued, and whether
process returned an Error value. -/
structure ServiceOutcome where
  fetches : Nat
  creates : Nat
  isError : Bool
deriving DecidableEq, Repr

/-- The enabled-services flags and push flag of one job request. -/
structure SchedCfg where
  enabledStackOverflow : Bool
  enabledInternalStackOverflow : Bool
  enabledGithub : Bool
  pushToDevOps : Bool
deriving DecidableEq, Repr

/-- The settings, credentials and abstracted service outcomes a job runs
against. -/
structure SchedEnv where
  useTestData : Bool
  adoOrgPresent : Bool
  adoPatPresent : Bool
  validationValid : Bool
  soOutcome : ServiceOutcome
  isoOutcome : ServiceOutcome
  ghOutcome : ServiceOutcome
deriving DecidableEq, Repr

/-- The await boundaries of runQueryJob at which a concurrently served
cancel request can take effect: before the work starts, before service i
begins, at a checkpoint inside service i, or during the terminal snapshot
persistence after the last service. -/
inductive CancelPoint where
  | atStart
  | beforeService (i : Nat)
  | duringService (i : Nat)
  | beforeTerminalUpdate
  | never
deriving DecidableEq, Repr

/-- The job record as the control plane reads it, plus the cumulative fetch
and create counters and the keys of the per-service results written. -/
structure JobM where
  status : JobStatus
  aborted : Bool
  fetches : Nat
  creates : Nat
  serviceErrors : List String
  servicesResults : List String
deriving DecidableEq, Repr

/-- The job record created by createJob. -/
def initialJob : JobM :=
  { status := .running, aborted := false, fetches := 0, creates := 0
  , serviceErrors := [], servicesResults := [] }

/-- cancelJob (part_019 lines 75-83) served at a given point: when the job
is still running it aborts the controller and sets the status to cancelled;
otherwise nothing happens. -/
def applyCancel (cancelAt here : CancelPoint) (st : JobM) : JobM :=
  if cancelAt = here then
    if st.status = .running then { st with aborted := true, status := .cancelled }
    else st
  else st

/-- One enabled-service block of runQueryJob (lines 185-208 and its two
copies).  The block only runs when the job status is still running; the service
observes the abort flag at its first checkpoint and throws AbortError, which
runQueryJob catches (the Bool component records that the catch was
entered).  A cancel served at a checkpoint inside the service marks the job
cancelled and the next checkpoint throws. -/
def serviceStep (cancelAt : CancelPoint) (idx : Nat) (enabled : Bool)
    (outcome : ServiceOutcome) (label : String) : JobM × Bool → JobM × Bool
  | (s, thrown) =>
      if thrown then (s, true)
      else
        let s1 := applyCancel cancelAt (.beforeService idx) s
        if enabled ∧ s1.status = .running then
          if s1.aborted then (s1, true)
          else if cancelAt = .duringService idx then
            ({ s1 with aborted := true, status := .cancelled }, true)
          else
            ({ s1 with
                fetches := s1.fetches + outcome.fetches
              , creates := s1.creates + outcome.creates
              , serviceErrors := s1.serviceErrors ++ (if outcome.isError then [label] else [])
              , servicesResults := s1.servicesResults ++ [label] }, false)
        else (s1, false)

/-- runQueryJob (part_019 lines 85-291): credential pre-validation gate,
the three sequential service blocks, and the terminal updateJob.  The
validation-failure paths and the final update set the status to completed
unconditionally; only the AbortError catch path sets cancelled. -/
def runQueryJobModel (cfg : SchedCfg) (env : SchedEnv) (cancelAt : CancelPoint) : JobM :=
  let st0 := applyCancel cancelAt .atStart initialJob
  let anyService :=
    cfg.enabledStackOverflow || cfg.enabledInternalStackOverflow || cfg.enabledGithub
  if !env.useTestData && anyService && cfg.pushToDevOps
      && (!env.adoOrgPresent || !env.adoPatPresent) then
    { st0 with status := .completed, serviceErrors := st0.serviceErrors ++ ["Azure DevOps"] }
  else if !env.useTestData && anyService && cfg.pushToDevOps && !env.validationValid then
    { st0 with status := .completed, serviceErrors := st0.serviceErrors ++ ["Azure DevOps"] }
  else
    let step1 := serviceStep cancelAt 0 cfg.enabledStackOverflow env.soOutcome
      "Stack Overflow" (st0, false)
    let step2 := serviceStep cancelAt 1 cfg.enabledInternalStackOverflow env.isoOutcome
      "Internal Stack Overflow" step1
    let step3 := serviceStep cancelAt 2 cfg.enabledGithub env.ghOutcome
      "GitHub" step2
    match step3 with
    | (s, true) => { s with status := .cancelled }
    | (s, false) =>
        let s2 := applyCancel cancelAt .beforeTerminalUpdate s
        { s2 with status := .completed }

/- ## Concrete scenario configurations and environments -/

/-- The public Stack Overflow configuration with a single tag (no
bot-framework tag). -/
def soPublicCfg : SOConfig :=
  { tags := ["azure"], source := "Stack Overflow"
  , getUrl := fun n => "https://stackoverflow.com/questions/" ++ toString n }

/-- Scenario 2: test-data mode off, the upstream answers 200 with one
question 12345 titled T, the WIQL search finds no work items, and create
answers 200. -/
def scenario2Env : SOEnv :=
  { useTestData := false, testData := []
  , fetchOutcome := fun _ => .success 200 [⟨12345, jstr "T", jstr "B"⟩]
  , wiql := fun _ => .resp 200 []
  , getWorkItem := fun _ => .thrown
  , org := "org", project := "proj", createOutcome := .ok 200 }

/-- A test-data-mode SO environment carrying the hardcoded test question of
part_000 getTestData, with no mirroring work item and a succeeding create.
Test-data mode is the one path on which the live item drop of getIssues does
not apply, so the downstream classification and create code is reachable. -/
def soTestDataEnv : SOEnv :=
  { useTestData := true
  , testData := [⟨78853530, jstr "Test Stack Overflow Question", jstr "<p>Test body</p>"⟩]
  , fetchOutcome := fun _ => .success 200 []
  , wiql := fun _ => .resp 200 []
  , getWorkItem := fun _ => .thrown
  , org := "org", project := "proj", createOutcome := .ok 200 }

/-- Scenario-4-style SO environment: the processed question 999 is titled
Existing while its tracker work item stores the title Different.  The item
arrives via the test-data path, the one path on which the Q and A pipeline
processes items at all (its live fetch path drops them; see getIssues). -/
def soTitleDriftEnv : SOEnv :=
  { useTestData := true
  , testData := [⟨999, jstr "Existing", jstr "B"⟩]
  , fetchOutcome := fun _ => .success 200 []
  , wiql := fun _ => .resp 200 [⟨1, "wi-url-1"⟩]
  , getWorkItem := fun _ => .resp 200 ⟨1, true, jstr "Different"⟩
  , org := "org", project := "proj", createOutcome := .ok 200 }

/-- Environment whose Q and A upstream answers 429 to every fetch (the
rejection carries the 429 response with no items). -/
def so429Env : SOEnv :=
  { useTestData := false, testData := []
  , fetchOutcome := fun _ => .failure (some (429, []))
  , wiql := fun _ => .resp 200 []
  , getWorkItem := fun _ => .thrown
  , org := "org", project := "proj", createOutcome := .ok 200 }

/-- SO environment with one genuinely new question (id 5) and one question
(id 999) already mirrored with an identical stored title, supplied through
the test-data path so the classification phase runs. -/
def soMixedEnv : SOEnv :=
  { useTestData := true
  , testData := [⟨5, jstr "N", jstr "B"⟩, ⟨999, jstr "Q", jstr "B"⟩]
  , fetchOutcome := fun _ => .success 200 []
  , wiql := fun n => if n = 999 then .resp 200 [⟨1, "wi-url-1"⟩] else .resp 200 []
  , getWorkItem := fun _ => .resp 200 ⟨1, true, jstr "Q"⟩
  , org := "org", project := "proj", createOutcome := .ok 200 }

/-- GitHub configuration with one repository. -/
def ghCfg1 : GHConfig := { repositories := ["botbuilder-js"], source := "GitHub" }

/-- Single-issue GitHub environment: the fetched issue has the given number
and title and its tracker work item stores the given title. -/
def ghOneEnv (n : Nat) (t storedTitle : JSString) : GHEnv :=
  { useTestData := false, testData := []
  , repoFetch := fun _ => .ok [⟨n, [], "botbuilder-js", t, "https://github.test/issue"⟩]
  , wiql := fun _ => .resp 200 [⟨1, "wi-url-1"⟩]
  , getWorkItem := fun _ => .resp 200 ⟨1, storedTitle⟩
  , org := "org", project := "proj", createOutcome := .ok 200 }

/-- Single-question SO environment: the processed question has the given id
and title and its tracker work item stores the given title; the question
arrives via the test-data path, the one path on which the Q and A pipeline
processes items. -/
def soOneMatchedEnv (n : Nat) (t storedTitle : JSString) : SOEnv :=
  { useTestData := true
  , testData := [⟨n, t, jstr "B"⟩]
  , fetchOutcome := fun _ => .success 200 []
  , wiql := fun _ => .resp 200 [⟨1, "wi-url-1"⟩]
  , getWorkItem := fun _ => .resp 200 ⟨1, true, storedTitle⟩
  , org := "org", project := "proj", createOutcome := .ok 200 }

/-- A job request with all three sources enabled and push on. -/
def schedAllCfg : SchedCfg := ⟨true, true, true, true⟩

/-- A healthy scheduler environment: real data, credentials present and
valid, all three services succeed (the SO service issues one create). -/
def schedHealthyEnv : SchedEnv :=
  { useTestData := false, adoOrgPresent := true, adoPatPresent := true
  , validationValid := true
  , soOutcome := ⟨2, 1, false⟩, isoOutcome := ⟨1, 0, false⟩, ghOutcome := ⟨3, 0, false⟩ }

/- ## Claim theorems -/

/-- C1: evaluation at the failing input — the scenario-2 run itself.  With
test-data mode off, the upstream answering 200 with question 12345 titled T,
an empty WIQL result and a succeeding create, the real pipeline returns 204
No-new-posts with no snapshot write and no create POST: the async
handleServiceResponse is called without await in getIssues, so the fetched
items are dropped before the tag loop ever sees them, and the claimed
found.count = 1 / newIssues.count = 1 / one create POST never happen. -/
theorem C1_scenario2_items_dropped :
    (SOprocess soPublicCfg scenario2Env {}).2 = .noNewPosts ∧
    (SOprocess soPublicCfg scenario2Env {}).1.foundCount = none ∧
    (SOprocess soPublicCfg scenario2Env {}).1.newIssuesCount = none ∧
    (SOprocess soPublicCfg scenario2Env {}).1.devOps = none ∧
    (SOprocess soPublicCfg scenario2Env {}).1.creates = [] := by
  exact ⟨rfl, rfl, rfl, rfl, rfl⟩

/-- C2: the claim that no reconciler issues create calls when the push flag
is false fails on the Stack Overflow pipeline — process destructures only
signal, so a run whose test question is unmirrored issues one create POST
even with pushToDevOps set to false (test-data mode is the one path on which
the Q and A pipeline reaches addIssues at all), and the whole run is
independent of that flag. -/
theorem C2_so_creates_despite_push_off :
    (SOprocess soPublicCfg soTestDataEnv { pushToDevOps := false }).1.creates.length = 1 ∧
    (∀ cfg env a b₁ b₂, SOprocess cfg env ⟨a, b₁⟩ = SOprocess cfg env ⟨a, b₂⟩) := by
  exact ⟨rfl, fun _ _ _ _ _ => rfl⟩

/-- C3 counterexample: in the Q and A reconciler a processed issue whose id
matches an existing tracker work item with a case-differing stored title is
not classified NEW — the run (fed through the test-data path, the one path
on which the Q and A pipeline processes items) ends with no posts to add,
writes no newIssues section and issues no create, even though the devOps
lookup recorded the id-matching work item. -/
theorem C3_counterexample_so_drift_not_new :
    (SOprocess soPublicCfg soTitleDriftEnv {}).1.newIssuesList = none ∧
    (SOprocess soPublicCfg soTitleDriftEnv {}).1.creates = [] ∧
    ((SOprocess soPublicCfg soTitleDriftEnv {}).1.devOps.map
      (fun p => p.2.map SODevOpsMatch.customIssueID)) = some [999] ∧
    (SOprocess soPublicCfg soTitleDriftEnv {}).2 = .noPostsToAdd := by
  exact ⟨rfl, rfl, rfl, rfl⟩

/-- C4: evaluation at the failing schedule — a cancel served after the first
service block has completed takes effect on a running job (the remaining two
services are skipped), yet the terminal updateJob overwrites the status, so
the cancelled job is finally reported completed; a cancel observed at a
checkpoint inside a service does end the job cancelled. -/
theorem C4_cancel_overwritten_by_completed :
    (runQueryJobModel schedAllCfg schedHealthyEnv (.beforeService 1)).status = .completed ∧
    (runQueryJobModel schedAllCfg schedHealthyEnv (.beforeService 1)).servicesResults =
      ["Stack Overflow"] ∧
    (runQueryJobModel schedAllCfg schedHealthyEnv .beforeTerminalUpdate).status = .completed ∧
    (runQueryJobModel schedAllCfg schedHealthyEnv (.duringService 0)).status = .cancelled ∧
    (runQueryJobModel schedAllCfg schedHealthyEnv (.duringService 0)).creates = 0 := by
  exact ⟨rfl, rfl, rfl, rfl, rfl⟩

/-- C6: evaluation at the failing input — with numberOfDaysToQuery = 1 and
startHour = 0 in the request (and no stored defaults), the || defaulting
treats 0 as absent, so the derived query instant lies at hour 10 of the
previous day, not at local midnight as the claim states. -/
theorem C6_startHour_zero_becomes_ten :
    deriveQueryDate ⟨1000, 15, 30, 45, 500⟩ (some 1) (some 0) none none =
      { day := 999, hour := 10, minute := 0, second := 0, ms := 0 } ∧
    (deriveQueryDate ⟨1000, 15, 30, 45, 500⟩ (some 1) (some 0) none none).hour ≠ 0 := by
  exact ⟨rfl, by decide⟩

/-- C7 counterexample: a title of 128 astral code points has code-point
length 128, at most 255, yet the normalized System.Title differs from it —
slice(0, 255) cuts UTF-16 code units, not code points, so the claimed
equivalence (unchanged iff at most 255 code points) fails. -/
theorem C7_counterexample_astral_title :
    (List.replicate 128 128512).length ≤ 255 ∧
    (mapSOIssue soPublicCfg
        ⟨1, utf16Encode (List.replicate 128 128512), []⟩).systemTitle ≠
      utf16Encode (List.replicate 128 128512) := by
  have key : ∀ k, (utf16Encode (List.replicate k 128512)).length = 2 * k := by
    intro k
    induction k with
    | zero => rfl
    | succ n ih =>
        rw [List.replicate_succ]
        simp only [utf16Encode, List.flatMap_cons, List.length_append] at ih ⊢
        have hlt : ¬ (128512 < 65536) := by norm_num
        rw [if_neg hlt]
        simp only [List.length_cons, List.length_nil] at ih ⊢
        omega
  refine ⟨by simp, ?_⟩
  intro h
  have hl := congrArg List.length h
  simp only [mapSOIssue, jsSlice255, List.length_take, key 128] at hl
  omega

/-- C8 counterexample: in the GitHub run where the single fetched issue 7 is
id-matched by a tracker work item whose stored title differs, issue id 7 is
written both to the devOps section and to newIssues.issues — the persisted
sections are not disjoint by issue id. -/
theorem C8_counterexample_gh_overlap :
    ((GHprocess ghCfg1 (ghOneEnv 7 (jstr "A") (jstr "Different")) {}).1.devOps.map
      (fun l => l.map GHDevOpsMatch.customIssueID)) = some [7] ∧
    ((GHprocess ghCfg1 (ghOneEnv 7 (jstr "A") (jstr "Different")) {}).1.newIssuesList.map
      (fun l => l.map GHIssue.customIssueID)) = some [7] := by
  exact ⟨rfl, rfl⟩

/-- C9: on a 429 the Q and A fetch client sleeps 5.1 seconds and returns the
429 response object after its single request (no retry), and the enclosing
per-tag getIssues yields the empty item list rather than an error: the async
handleServiceResponse it calls is never awaited, so no 429 Error ever
reaches the tag loop and `response.data?.items || []` evaluates to []. -/
theorem C9_429_sleeps_then_empty_list (items : List SOItem) (env : SOEnv)
    (tag : String)
    (htd : env.useTestData = false)
    (hout : env.fetchOutcome tag = .failure (some (429, items))) :
    fetchStackOverflowIssues (.failure (some (429, items))) = ⟨1, 5100, .ok (429, items)⟩ ∧
    getIssues env false tag = .ok [] := by
  constructor
  · simp [fetchStackOverflowIssues]
  · simp only [getIssues, htd, hout]
    rfl

/-- C9 witness: the theorem applied to the concrete all-429 environment. -/
theorem C9_429_witness :
    fetchStackOverflowIssues (.failure (some (429, []))) = ⟨1, 5100, .ok (429, [])⟩ ∧
    getIssues so429Env false "azure" = .ok [] :=
  C9_429_sleeps_then_empty_list [] so429Env "azure" rfl rfl

/-- C5: with test-data mode off, at least one source enabled and push
enabled, a failing up-front credential check (missing organization, missing
PAT, or rejected credentials) terminates the job completed with exactly one
Azure DevOps service error, no per-source results, and zero upstream fetches
and creates — whatever cancel schedule is in play. -/
theorem C5_validation_failure_short_circuits (cfg : SchedCfg) (env : SchedEnv)
    (cancelAt : CancelPoint)
    (htd : env.useTestData = false)
    (hany : (cfg.enabledStackOverflow || cfg.enabledInternalStackOverflow ||
      cfg.enabledGithub) = true)
    (hpush : cfg.pushToDevOps = true)
    (hfail : env.adoOrgPresent = false ∨ env.adoPatPresent = false ∨
      env.validationValid = false) :
    (runQueryJobModel cfg env cancelAt).status = .completed ∧
    (runQueryJobModel cfg env cancelAt).serviceErrors = ["Azure DevOps"] ∧
    (runQueryJobModel cfg env cancelAt).servicesResults = [] ∧
    (runQueryJobModel cfg env cancelAt).fetches = 0 ∧
    (runQueryJobModel cfg env cancelAt).creates = 0 := by
  have hbase : (applyCancel cancelAt .atStart initialJob).serviceErrors = [] ∧
      (applyCancel cancelAt .atStart initialJob).servicesResults = [] ∧
      (applyCancel cancelAt .atStart initialJob).fetches = 0 ∧
      (applyCancel cancelAt .atStart initialJob).creates = 0 := by
    unfold applyCancel initialJob
    split <;> simp
  obtain ⟨e1, e2, e3, e4⟩ := hbase
  cases horg : env.adoOrgPresent <;> cases hpat : env.adoPatPresent <;>
    cases hvalid : env.validationValid <;>
    simp_all [runQueryJobModel, htd, hpush, hany]

/-- Witness for C5 at a concrete job: all sources enabled, push on, PAT
missing. -/
def schedNoPatEnv : SchedEnv :=
  { useTestData := false, adoOrgPresent := true, adoPatPresent := false
  , validationValid := true
  , soOutcome := ⟨2, 1, false⟩, isoOutcome := ⟨1, 0, false⟩, ghOutcome := ⟨3, 0, false⟩ }

/-- C5 witness: the theorem applied to the concrete missing-PAT job. -/
theorem C5_validation_failure_witness :
    (runQueryJobModel schedAllCfg schedNoPatEnv .never).status = .completed ∧
    (runQueryJobModel schedAllCfg schedNoPatEnv .never).serviceErrors = ["Azure DevOps"] ∧
    (runQueryJobModel schedAllCfg schedNoPatEnv .never).servicesResults = [] ∧
    (runQueryJobModel schedAllCfg schedNoPatEnv .never).fetches = 0 ∧
    (runQueryJobModel schedAllCfg schedNoPatEnv .never).creates = 0 :=
  C5_validation_failure_short_circuits schedAllCfg schedNoPatEnv .never rfl rfl rfl
    (Or.inr (Or.inl rfl))

/-- C7 amended: the normalized System.Title of both pipelines is the title
truncated to at most 255 UTF-16 code units (JS slice), and that truncation
leaves the string unchanged exactly when its code-unit length is at most
255. -/
theorem C7_amended_truncation_by_units (cfg : SOConfig) (it : SOItem)
    (source : String) (git : GHItem) (t : JSString) :
    (mapSOIssue cfg it).systemTitle = jsSlice255 it.title ∧
    (mapGHIssue source git).systemTitle = jsSlice255 git.title ∧
    (jsSlice255 t = t ↔ t.length ≤ 255) := by
  refine ⟨rfl, rfl, ?_, ?_⟩
  · intro h
    have hl := congrArg List.length h
    rw [jsSlice255, List.length_take] at hl
    omega
  · intro h
    exact List.take_of_length_le h

/-- C3 amended: when a fetched issue is id-matched by a tracker work item
whose stored title differs case-sensitively from the normalized title, the
SCM reconciler classifies it NEW — it lands in newIssues and, push being
enabled, exactly one create goes out for it — whereas the Q and A reconciler
never classifies an id-matched issue as NEW: its run writes no newIssues
section and issues no create, whatever the stored title is. -/
theorem C3_amended_drift_new_only_in_scm (n : Nat) (t storedTitle : JSString)
    (hne : storedTitle ≠ jsSlice255 t) :
    ((GHprocess ghCfg1 (ghOneEnv n t storedTitle) {}).1.newIssuesList.map
      (fun l => l.map GHIssue.customIssueID)) = some [n] ∧
    (GHprocess ghCfg1 (ghOneEnv n t storedTitle) {}).1.creates.map
      GHIssue.customIssueID = [n] ∧
    (SOprocess soPublicCfg (soOneMatchedEnv n t storedTitle) {}).1.newIssuesList = none ∧
    (SOprocess soPublicCfg (soOneMatchedEnv n t storedTitle) {}).1.creates = [] := by
  have hbeq : (storedTitle == jsSlice255 t) = false := by
    simp [hne]
  refine ⟨?_, ?_, ?_, ?_⟩ <;>
    simp [GHprocess, SOprocess, ghFetchPhase, fetchPhase, getIssues,
      fetchStackOverflowIssues, areObjectsInArrayEmpty, removeDuplicates,
      mapGHIssue, mapSOIssue, ghLookupPhase, lookupPhase, ghCollectDetails,
      collectMatches, ghClassifyPhase, classifyPhase, markNew, markNewStep, ghAddIssues,
      addIssues, processAfterFetch, foundOnly, ghOneEnv, soOneMatchedEnv,
      ghCfg1, soPublicCfg, hbeq]

/-- C3 amended witness: the theorem at the concrete scenario-4 titles. -/
theorem C3_amended_drift_witness :
    ((GHprocess ghCfg1 (ghOneEnv 999 (jstr "Existing") (jstr "Different")) {}).1.newIssuesList.map
      (fun l => l.map GHIssue.customIssueID)) = some [999] ∧
    (GHprocess ghCfg1 (ghOneEnv 999 (jstr "Existing") (jstr "Different")) {}).1.creates.map
      GHIssue.customIssueID = [999] ∧
    (SOprocess soPublicCfg (soOneMatchedEnv 999 (jstr "Existing") (jstr "Different")) {}).1.newIssuesList = none ∧
    (SOprocess soPublicCfg (soOneMatchedEnv 999 (jstr "Existing") (jstr "Different")) {}).1.creates = [] :=
  C3_amended_drift_new_only_in_scm 999 (jstr "Existing") (jstr "Different") (by decide)

/- ## Disjointness of the Q and A snapshot sections -/

/-- setStatusNew only changes a status field: the issue-id sequence is
unchanged. -/
theorem setStatusNew_map_cid (l : List SOIssue) (i : Nat) :
    (setStatusNew l i).map SOIssue.customIssueID = l.map SOIssue.customIssueID := by
  induction l generalizing i with
  | nil => rfl
  | cons x xs ih =>
      cases i with
      | zero => rfl
      | succ k => simp [setStatusNew, ih]

/-- One marking step leaves the issue-id sequence of unassignedIssues
unchanged. -/
theorem markNewStep_map_cid (m : List SODevOpsMatch) (ua : List SOIssue) (x : SOIssue) :
    (markNewStep m ua x).map SOIssue.customIssueID = ua.map SOIssue.customIssueID := by
  simp only [markNewStep]
  split
  · split
    · exact setStatusNew_map_cid _ _
    · rfl
  · rfl

/-- The whole marking loop leaves the issue-id sequence of unassignedIssues
unchanged. -/
theorem markNew_map_cid (issues : List SOIssue) (m : List SODevOpsMatch)
    (ua : List SOIssue) :
    (markNew issues m ua).map SOIssue.customIssueID = ua.map SOIssue.customIssueID := by
  induction issues generalizing ua with
  | nil => rfl
  | cons x xs ih =>
      simp only [markNew, List.foldl_cons] at ih ⊢
      rw [ih, markNewStep_map_cid]

/-- Every possible DevOps match produced for one issue carries the id of
that issue. -/
theorem collectMatches_mem_cid (env : SOEnv) (ab : Bool) (issue : SOIssue)
    (wis : List WorkItemRef) (ms : List SODevOpsMatch)
    (h : collectMatches env ab issue wis = .ok ms) :
    ∀ x ∈ ms, x.customIssueID = issue.customIssueID := by
  induction wis generalizing ms with
  | nil =>
      simp only [collectMatches, Except.ok.injEq] at h
      subst h
      simp
  | cons wi rest ih =>
      simp only [collectMatches] at h
      split at h
      · simp at h
      · split at h
        · simp at h
        · split at h
          · simp at h
          · rename_i more heqrest
            simp only [Except.ok.injEq] at h
            subst h
            intro x hx
            rcases List.mem_append.mp hx with hx | hx
            · split at hx
              · simp only [List.mem_singleton] at hx
                subst hx
                rfl
              · simp at hx
            · exact ih more heqrest x hx

/-- What the lookup loop guarantees about its output: every unassigned issue
saw an empty 200 WIQL hit list for its id, and every possible DevOps match
arises from an id whose 200 WIQL hit list was non-empty. -/
theorem lookupPhase_ok_facts (env : SOEnv) (ab : Bool) (issues : List SOIssue)
    (u : List SOIssue) (m : List SODevOpsMatch)
    (h : lookupPhase env ab issues = .ok (u, m)) :
    (∀ x ∈ u, env.wiql x.customIssueID = .resp 200 []) ∧
    (∀ y ∈ m, ∃ wis, env.wiql y.customIssueID = .resp 200 wis ∧ wis ≠ []) := by
  induction issues generalizing u m with
  | nil =>
      simp only [lookupPhase, Except.ok.injEq, Prod.mk.injEq] at h
      obtain ⟨hu, hm⟩ := h
      subst hu; subst hm
      simp
  | cons issue rest ih =>
      simp only [lookupPhase] at h
      split at h
      · simp at h
      · split at h
        · exact ih _ _ h
        · rename_i status workItems heqw
          split at h
          · rename_i hcond
            split at h
            · simp at h
            · rename_i ms' heqc
              split at h
              · simp at h
              · rename_i u' m' heqr
                rw [Bool.and_eq_true] at hcond
                obtain ⟨hs, hne⟩ := hcond
                rw [Bool.not_eq_true'] at hne
                rw [beq_iff_eq] at hs
                subst hs
                simp only [hne, Bool.and_false, Bool.false_eq_true, if_false,
                  List.nil_append, Except.ok.injEq, Prod.mk.injEq] at h
                obtain ⟨hu, hm⟩ := h
                subst hu; subst hm
                obtain ⟨ihu, ihm⟩ := ih _ _ heqr
                refine ⟨ihu, ?_⟩
                intro y hy
                rcases List.mem_append.mp hy with hy | hy
                · refine ⟨workItems, ?_, ?_⟩
                  · rw [collectMatches_mem_cid env ab issue workItems ms' heqc y hy]
                    exact heqw
                  · cases workItems with
                    | nil => simp at hne
                    | cons a as => simp
                · exact ihm y hy
          · rename_i hcond
            split at h
            · simp at h
            · rename_i u' m' heqr
              simp only [Except.ok.injEq, Prod.mk.injEq] at h
              obtain ⟨hu, hm⟩ := h
              subst hm
              obtain ⟨ihu, ihm⟩ := ih _ _ heqr
              refine ⟨?_, ihm⟩
              intro x hx
              rw [← hu] at hx
              by_cases hc2 : (status == 200 && workItems.isEmpty) = true
              · rw [if_pos hc2] at hx
                rw [Bool.and_eq_true] at hc2
                obtain ⟨hs, hemp⟩ := hc2
                rw [beq_iff_eq] at hs
                subst hs
                rw [List.isEmpty_iff] at hemp
                subst hemp
                rcases List.mem_append.mp hx with hx | hx
                · rw [List.mem_singleton] at hx
                  subst hx
                  exact heqw
                · exact ihu x hx
              · rw [if_neg hc2, List.nil_append] at hx
                exact ihu x hx

/-- Across one whole Stack Overflow run, the persisted newIssues and devOps
sections never share an issue id: an unassigned issue had an empty WIQL hit
list while a devOps entry had a non-empty one, and the marking loop does not
change the unassigned ids. -/
theorem SOprocess_sections_disjoint (cfg : SOConfig) (env : SOEnv) (opts : SOOptions) :
    ∀ k1 ms k2 us, (SOprocess cfg env opts).1.devOps = some (k1, ms) →
      (SOprocess cfg env opts).1.newIssuesList = some (k2, us) →
      ∀ n ∈ us.map SOIssue.customIssueID, n ∉ ms.map SODevOpsMatch.customIssueID := by
  unfold SOprocess
  split
  · intro k1 ms k2 us hdev
    simp at hdev
  · split
    · intro k1 ms k2 us hdev
      simp at hdev
    · simp only [processAfterFetch]
      split
      · intro k1 ms k2 us hdev
        simp [foundOnly] at hdev
      · rename_i unassigned devMatches heqlookup
        simp only [classifyPhase]
        split
        · -- devMatches = []: the devOps section is never written
          split
          · intro k1 ms k2 us hdev
            simp [foundOnly] at hdev
          · split
            · intro k1 ms k2 us hdev
              simp [foundOnly] at hdev
            · intro k1 ms k2 us hdev
              simp [foundOnly] at hdev
            · intro k1 ms k2 us hdev
              simp [foundOnly] at hdev
        · rename_i hnonempty
          split
          · intro k1 ms k2 us hdev hnew
            simp [foundOnly] at hnew
          · split
            · intro k1 ms k2 us hdev hnew
              simp only [foundOnly] at hdev hnew
              simp only [Option.some.injEq, Prod.mk.injEq] at hdev hnew
              obtain ⟨-, hms⟩ := hdev
              obtain ⟨-, hus⟩ := hnew
              subst hms; subst hus
              intro n hn hmem
              rw [markNew_map_cid] at hn
              obtain ⟨x, hx, hxn⟩ := List.mem_map.mp hn
              obtain ⟨y, hy, hyn⟩ := List.mem_map.mp hmem
              obtain ⟨fu, fm⟩ := lookupPhase_ok_facts env opts.aborted _ _ _ heqlookup
              have h1 := fu x hx
              obtain ⟨wis, h2, hwne⟩ := fm y hy
              rw [hxn] at h1
              rw [hyn] at h2
              rw [h1] at h2
              injection h2 with _ h3
              exact hwne h3.symm
            · intro k1 ms k2 us hdev hnew
              simp only [foundOnly] at hdev hnew
              simp only [Option.some.injEq, Prod.mk.injEq] at hdev hnew
              obtain ⟨-, hms⟩ := hdev
              obtain ⟨-, hus⟩ := hnew
              subst hms; subst hus
              intro n hn hmem
              rw [markNew_map_cid] at hn
              obtain ⟨x, hx, hxn⟩ := List.mem_map.mp hn
              obtain ⟨y, hy, hyn⟩ := List.mem_map.mp hmem
              obtain ⟨fu, fm⟩ := lookupPhase_ok_facts env opts.aborted _ _ _ heqlookup
              have h1 := fu x hx
              obtain ⟨wis, h2, hwne⟩ := fm y hy
              rw [hxn] at h1
              rw [hyn] at h2
              rw [h1] at h2
              injection h2 with _ h3
              exact hwne h3.symm
            · intro k1 ms k2 us hdev hnew
              simp only [foundOnly] at hdev hnew
              simp only [Option.some.injEq, Prod.mk.injEq] at hdev hnew
              obtain ⟨-, hms⟩ := hdev
              obtain ⟨-, hus⟩ := hnew
              subst hms; subst hus
              intro n hn hmem
              rw [markNew_map_cid] at hn
              obtain ⟨x, hx, hxn⟩ := List.mem_map.mp hn
              obtain ⟨y, hy, hyn⟩ := List.mem_map.mp hmem
              obtain ⟨fu, fm⟩ := lookupPhase_ok_facts env opts.aborted _ _ _ heqlookup
              have h1 := fu x hx
              obtain ⟨wis, h2, hwne⟩ := fm y hy
              rw [hxn] at h1
              rw [hyn] at h2
              rw [h1] at h2
              injection h2 with _ h3
              exact hwne h3.symm

/-- C8 amended: the Q and A snapshot sections are disjoint by issue id —
whenever one Stack Overflow run persists both a devOps sequence and a
newIssues sequence, no issue id occurs in both.  (The SCM sections need not
be disjoint; see the counterexample.) -/
theorem C8_amended_qa_sections_disjoint (cfg : SOConfig) (env : SOEnv) (opts : SOOptions)
    (k1 k2 : String) (ms : List SODevOpsMatch) (us : List SOIssue)
    (hdev : (SOprocess cfg env opts).1.devOps = some (k1, ms))
    (hnew : (SOprocess cfg env opts).1.newIssuesList = some (k2, us))
    (n : Nat) (hn : n ∈ us.map SOIssue.customIssueID) :
    n ∉ ms.map SODevOpsMatch.customIssueID :=
  SOprocess_sections_disjoint cfg env opts k1 ms k2 us hdev hnew n hn

/-- The single new issue of the mixed SO scenario. -/
def c8WitnessIssue : SOIssue := mapSOIssue soPublicCfg ⟨5, jstr "N", jstr "B"⟩

/-- The single devOps match of the mixed SO scenario. -/
def c8WitnessMatch : SODevOpsMatch :=
  { id := 1, customIssueID := 999
  , customIssueURL := (mapSOIssue soPublicCfg ⟨999, jstr "Q", jstr "B"⟩).customIssueURL
  , customDevOpsURL := "https://dev.azure.com/org/proj/_workitems/edit/" ++ toString 1
  , systemTitle := jstr "Q" }

/-- C8 amended witness: the theorem applied to the concrete mixed run, whose
devOps and newIssues sections are both non-empty. -/
theorem C8_amended_witness :
    (5 : Nat) ∉ [c8WitnessMatch].map SODevOpsMatch.customIssueID :=
  C8_amended_qa_sections_disjoint soPublicCfg soMixedEnv {} "stackOverflow" "stackOverflow"
    [c8WitnessMatch] [c8WitnessIssue] rfl rfl 5 (by simp [c8WitnessIssue, mapSOIssue])

/- ## Tag-driven section key and User-Agent -/

/-- Every snapshot write of w is tagged with the given section key. -/
def usesKey (key : String) (w : SOWrites) : Prop :=
  (∀ p ∈ w.foundIssues, p.1 = key) ∧ (∀ p ∈ w.foundCount, p.1 = key) ∧
  (∀ p ∈ w.devOps, p.1 = key) ∧ (∀ p ∈ w.newIssuesList, p.1 = key) ∧
  (∀ p ∈ w.newIssuesCount, p.1 = key)

/-- A run with no writes uses any key vacuously. -/
theorem usesKey_empty (key : String) : usesKey key {} := by
  simp [usesKey, Option.mem_def]

/-- The found-only writes are tagged with the tag-derived key. -/
theorem usesKey_foundOnly (cfg : SOConfig) (issues : List SOIssue) :
    usesKey (soSnapshotKey cfg.tags) (foundOnly cfg issues) := by
  simp [usesKey, foundOnly, Option.mem_def]

/-- Every write any Stack Overflow run performs carries the key derived from
the tag list alone. -/
theorem SOprocess_usesKey (cfg : SOConfig) (env : SOEnv) (opts : SOOptions) :
    usesKey (soSnapshotKey cfg.tags) (SOprocess cfg env opts).1 := by
  unfold SOprocess
  split
  · exact usesKey_empty _
  · split
    · exact usesKey_empty _
    · simp only [processAfterFetch]
      split
      · exact usesKey_foundOnly _ _
      · rename_i unassigned devMatches heqlookup
        simp only [classifyPhase]
        repeat' split
        all_goals simp [usesKey, foundOnly, Option.mem_def]

/-- C10: the snapshot section and the sent User-Agent depend on the tag list
alone — the header literal overrides any class-supplied User-Agent with the
tag-derived one, the section key is internalStackOverflow exactly when the
tag list contains bot-framework, and every write of any run (public or
internal class, any environment) is tagged with that tag-derived key. -/
theorem C10_tag_alone_selects_section_and_agent :
    (∀ (tags : List String) (hs : List (String × String)),
      headerValue "User-Agent" (soFetchHeaders tags hs) =
        some (if tags.contains "bot-framework" then "InternalStackOverflowService"
              else "StackOverflowService")) ∧
    (∀ tags : List String, soSnapshotKey tags = "internalStackOverflow" ↔
      tags.contains "bot-framework" = true) ∧
    (∀ (cfg : SOConfig) (env : SOEnv) (opts : SOOptions),
      usesKey (soSnapshotKey cfg.tags) (SOprocess cfg env opts).1) := by
  refine ⟨?_, ?_, SOprocess_usesKey⟩
  · intro tags hs
    simp [headerValue, soFetchHeaders, List.reverse_append]
  · intro tags
    by_cases h : tags.contains "bot-framework" <;> simp [soSnapshotKey, h]

/-- C10 witness: the theorem applied to a public run whose internal-style
config headers are overridden, and to the scenario-2 run whose found write
carries the stackOverflow key. -/
theorem C10_witness :
    headerValue "User-Agent" (soFetchHeaders ["azure"] (internalConfigHeaders "key")) =
      some "StackOverflowService" ∧
    ("stackOverflow", (1 : Nat)).1 = soSnapshotKey soPublicCfg.tags := by
  constructor
  · have h := C10_tag_alone_selects_section_and_agent.1 ["azure"] (internalConfigHeaders "key")
    simpa using h
  · exact (C10_tag_alone_selects_section_and_agent.2.2 soPublicCfg soTestDataEnv {}).2.1
      ("stackOverflow", 1) (Option.mem_def.mpr rfl)

end SupportTracker
